import Mathlib

/-!
Verification of the fitness-type module of the genevo repository
(src/types.rs).  The module implements a `Fitness` trait for the
primitive integer types: `zero()` returns the literal 0, and
`abs_diff` computes the absolute difference of two same-type values.

The signed-family implementation is
    fn abs_diff(&self, other) { let diff = self - other; diff.abs() }
where both the subtraction and the absolute value are checked native
operations: the subtraction faults when `a - b` is not representable
in the width, and `abs` faults when its argument is the most negative
value of the width (negation overflow).

The unsigned-family implementation is
    fn abs_diff(&self, other) { if self > other { self - other } else { other - self } }
where the subtraction is checked native unsigned subtraction, which
faults on underflow.

We embed a fixed-width two's-complement integer of width `w` as an
`Int` in the range `[smin w, smax w]`, and an unsigned integer of
width `w` as a `Nat` at most `umax w`.  Checked operations return
`Except ArithFault _` (signed) or `Option _` (unsigned), with the
fault kind recording which panic the Rust code raises.
-/

namespace Genevo

/-- The two arithmetic panics the signed implementation can raise:
an overflowing subtraction ("attempt to subtract with overflow") and
negating the minimum value inside `abs` ("attempt to negate with
overflow"). -/
inductive ArithFault where
  | subOverflow : ArithFault
  | negOverflow : ArithFault
deriving DecidableEq

/-- Minimum value of a signed two's-complement integer of width `w`. -/
def smin (w : Nat) : Int := -(2 ^ (w - 1))

/-- Maximum value of a signed two's-complement integer of width `w`. -/
def smax (w : Nat) : Int := 2 ^ (w - 1) - 1

/-- Maximum value of an unsigned integer of width `w`. -/
def umax (w : Nat) : Nat := 2 ^ w - 1

/-- Checked signed subtraction of width `w`: faults when the exact
difference is outside the representable range, as Rust's checked
`-` does. -/
def checkedSub (w : Nat) (a b : Int) : Except ArithFault Int :=
  if smin w ≤ a - b ∧ a - b ≤ smax w then .ok (a - b) else .error .subOverflow

/-- Checked absolute value of width `w`: Rust's `i*::abs`, which
faults exactly on the most negative value (its magnitude is not
representable) and otherwise returns the absolute value. -/
def checkedAbs (w : Nat) (d : Int) : Except ArithFault Int :=
  if d = smin w then .error .negOverflow else .ok |d|

/-- Signed-family `zero()`: the literal 0 (types.rs line 28). -/
def signed_zero : Int := 0

/-- Signed-family `abs_diff` (types.rs lines 31-34):
`let diff = self - other; diff.abs()`, with both steps checked. -/
def signed_abs_diff (w : Nat) (a b : Int) : Except ArithFault Int :=
  match checkedSub w a b with
  | .error f => .error f
  | .ok diff => checkedAbs w diff

/-- Unsigned-family `zero()`: the literal 0 (types.rs line 48). -/
def unsigned_zero : Nat := 0

/-- Checked unsigned subtraction: faults on underflow, as Rust's
checked unsigned `-` does. -/
def checkedSubU (a b : Nat) : Option Nat :=
  if b ≤ a then some (a - b) else none

/-- Unsigned-family `abs_diff` (types.rs lines 51-57):
`if self > other { self - other } else { other - self }`. -/
def unsigned_abs_diff (a b : Nat) : Option Nat :=
  if a > b then checkedSubU a b else checkedSubU b a

/-! Helper lemmas shared by the claim theorems. -/

theorem one_le_two_pow_int (n : Nat) : (1 : Int) ≤ 2 ^ n := by
  have h : (0 : Int) < 2 ^ n := pow_pos (by norm_num) n
  simpa using Int.add_one_le_iff.mpr h

theorem smin_eq_neg_smax_sub_one (w : Nat) : smin w = -(smax w) - 1 := by
  unfold smin smax; ring

theorem smin_le_smax (w : Nat) : smin w ≤ smax w := by
  unfold smin smax
  have h := one_le_two_pow_int (w - 1)
  linarith

/-- Closed form of the signed implementation: subtraction overflow if
the difference leaves the range, negation overflow if it equals the
minimum, otherwise the absolute difference. -/
theorem signed_abs_diff_spec (w : Nat) (a b : Int) :
    signed_abs_diff w a b =
      if smin w ≤ a - b ∧ a - b ≤ smax w then
        if a - b = smin w then .error .negOverflow else .ok |a - b|
      else .error .subOverflow := by
  unfold signed_abs_diff checkedSub checkedAbs
  split_ifs with h h2 <;> simp_all

/-- Closed form of the unsigned implementation: it always succeeds and
returns the distance between the two values. -/
theorem unsigned_abs_diff_eq (a b : Nat) :
    unsigned_abs_diff a b = some (max a b - min a b) := by
  unfold unsigned_abs_diff checkedSubU
  split_ifs <;> first
    | (simp only [Option.some.injEq]; omega)
    | (exfalso; omega)

/-- A successful signed `abs_diff` always returns the absolute value of
the exact difference. -/
theorem signed_abs_diff_ok_val (w : Nat) (a b r : Int)
    (h : signed_abs_diff w a b = .ok r) : r = |a - b| := by
  rw [signed_abs_diff_spec] at h
  split_ifs at h with hin he
  simp at h
  exact h.symm

/-- When the exact difference has magnitude at most `smax w`, the signed
`abs_diff` succeeds with that magnitude. -/
theorem signed_abs_diff_ok_small (w : Nat) (a b : Int) (h : |a - b| ≤ smax w) :
    signed_abs_diff w a b = .ok |a - b| := by
  have h1 := abs_le.mp h
  have hmin := smin_eq_neg_smax_sub_one w
  have hin : smin w ≤ a - b ∧ a - b ≤ smax w := ⟨by linarith [h1.1], h1.2⟩
  have hne : a - b ≠ smin w := by
    intro he
    have h2 := h1.1
    rw [he] at h2
    linarith
  rw [signed_abs_diff_spec, if_pos hin, if_neg hne]

/-- When the exact difference has magnitude greater than `smax w`, the
signed `abs_diff` faults: with a negation overflow when the difference
is exactly `smin w`, and with a subtraction overflow otherwise. -/
theorem signed_abs_diff_error_of_large (w : Nat) (a b : Int)
    (h : smax w < |a - b|) : ∃ f, signed_abs_diff w a b = .error f := by
  have hmin := smin_eq_neg_smax_sub_one w
  by_cases hin : smin w ≤ a - b ∧ a - b ≤ smax w
  · refine ⟨.negOverflow, ?_⟩
    have he : a - b = smin w := by
      rcases lt_abs.mp h with h1 | h1
      · exact absurd h1 (not_lt.mpr hin.2)
      · have h2 : a - b < smin w + 1 := by linarith
        exact le_antisymm (Int.lt_add_one_iff.mp h2) hin.1
    rw [signed_abs_diff_spec, if_pos hin, if_pos he]
  · exact ⟨.subOverflow, by rw [signed_abs_diff_spec, if_neg hin]⟩

/-! Claim theorems. -/

/-- Claim C1: for every signed width, `MAX.abs_diff(-1)` faults with an
arithmetic-overflow condition raised by the subtraction step, because
`MAX - (-1)` exceeds the representable range; no wrapped or saturated
value is returned. -/
theorem c1_signed_max_neg_one_sub_overflow (w : Nat) :
    checkedSub w (smax w) (-1) = .error .subOverflow ∧
    signed_abs_diff w (smax w) (-1) = .error .subOverflow := by
  have hsub : ¬(smin w ≤ smax w - (-1) ∧ smax w - (-1) ≤ smax w) := by
    rintro ⟨-, h2⟩
    linarith
  constructor
  · unfold checkedSub
    rw [if_neg hsub]
  · rw [signed_abs_diff_spec, if_neg hsub]

/-- Claim C2: for every signed width, `(-1).abs_diff(MAX)` faults with a
negation-overflow condition: the subtraction `-1 - MAX` produces the
most-negative value, and the absolute-value step then faults because the
true magnitude `MAX + 1` exceeds `MAX`. -/
theorem c2_signed_neg_one_max_neg_overflow (w : Nat) :
    checkedSub w (-1) (smax w) = .ok (smin w) ∧
    signed_abs_diff w (-1) (smax w) = .error .negOverflow := by
  have hd : (-1 : Int) - smax w = smin w := by
    rw [smin_eq_neg_smax_sub_one]; ring
  have hin : smin w ≤ (-1 : Int) - smax w ∧ (-1 : Int) - smax w ≤ smax w := by
    rw [hd]
    exact ⟨le_refl _, smin_le_smax w⟩
  constructor
  · unfold checkedSub
    rw [if_pos hin, hd]
  · rw [signed_abs_diff_spec, if_pos hin, if_pos hd]

/-- Claim C3: for every unsigned width and every same-width pair, the
unsigned `abs_diff` is total: it returns a value in range, never
underflowing or faulting, because the larger value leads the
subtraction. -/
theorem c3_unsigned_abs_diff_total (w a b : Nat)
    (ha : a ≤ umax w) (hb : b ≤ umax w) :
    ∃ r, unsigned_abs_diff a b = some r ∧ r ≤ umax w := by
  refine ⟨max a b - min a b, unsigned_abs_diff_eq a b, ?_⟩
  omega

/-- Witness for C3 at width 8 with the pair (5, 9). -/
theorem c3_unsigned_abs_diff_total_witness :
    5 ≤ umax 8 ∧ 9 ≤ umax 8 ∧
      ∃ r, unsigned_abs_diff 5 9 = some r ∧ r ≤ umax 8 :=
  ⟨by decide, by decide, c3_unsigned_abs_diff_total 8 5 9 (by decide) (by decide)⟩

/-- Claim C4: `abs_diff` is symmetric in result value: the unsigned
implementation satisfies `abs_diff a b = abs_diff b a` unconditionally,
and whenever both signed calls return a value the two results are
equal. -/
theorem c4_abs_diff_symmetric :
    (∀ a b : Nat, unsigned_abs_diff a b = unsigned_abs_diff b a) ∧
    (∀ (w : Nat) (a b r s : Int),
      signed_abs_diff w a b = .ok r → signed_abs_diff w b a = .ok s →
        r = s) := by
  constructor
  · intro a b
    rw [unsigned_abs_diff_eq, unsigned_abs_diff_eq, Nat.max_comm, Nat.min_comm]
  · intro w a b r s hab hba
    rw [signed_abs_diff_ok_val w a b r hab, signed_abs_diff_ok_val w b a s hba,
      abs_sub_comm]

/-- Witness for C4 at width 8 with the signed pair (3, 5). -/
theorem c4_abs_diff_symmetric_witness :
    unsigned_abs_diff 19 61 = unsigned_abs_diff 61 19 ∧ (2 : Int) = 2 :=
  ⟨c4_abs_diff_symmetric.1 19 61,
   c4_abs_diff_symmetric.2 8 3 5 2 2 (by rfl) (by rfl)⟩

/-- Counterexample for C5: at width 8 the signed `abs_diff` of
`MAX = 127` and `-1` does not return a value; it faults with a
subtraction overflow, so `abs_diff` is not total on the signed
family. -/
theorem c5_signed_not_total_counterexample :
    signed_abs_diff 8 127 (-1) = .error .subOverflow := by rfl

/-- Claim C5 (amended): `zero` is a fixed baseline and `abs_diff` is
deterministic and same-type on every family; the unsigned `abs_diff` is
total, while the signed `abs_diff` returns a value whenever the exact
difference has magnitude at most `MAX` (and faults otherwise, as at
`(MAX, -1)`). -/
theorem c5_abs_diff_deterministic_amended :
    (∀ a b : Nat, ∃ r, unsigned_abs_diff a b = some r) ∧
    (∀ (w : Nat) (a b : Int), |a - b| ≤ smax w →
      ∃ r, signed_abs_diff w a b = .ok r) ∧
    (∀ (w : Nat) (a b : Int), smax w < |a - b| →
      ∃ f, signed_abs_diff w a b = .error f) ∧
    (∀ (w : Nat) (a b c d : Int), a = c → b = d →
      signed_abs_diff w a b = signed_abs_diff w c d) ∧
    (∀ a b c d : Nat, a = c → b = d →
      unsigned_abs_diff a b = unsigned_abs_diff c d) := by
  refine ⟨?_, ?_, ?_, ?_, ?_⟩
  · intro a b
    exact ⟨_, unsigned_abs_diff_eq a b⟩
  · intro w a b h
    exact ⟨|a - b|, signed_abs_diff_ok_small w a b h⟩
  · intro w a b h
    exact signed_abs_diff_error_of_large w a b h
  · intro w a b c d hac hbd
    rw [hac, hbd]
  · intro a b c d hac hbd
    rw [hac, hbd]

/-- Witness for the amended C5 at width 8: an in-range pair succeeds and
an out-of-range pair faults. -/
theorem c5_abs_diff_deterministic_amended_witness :
    (∃ r, unsigned_abs_diff 1 2 = some r) ∧
    (∃ r, signed_abs_diff 8 3 5 = .ok r) ∧
    (∃ f, signed_abs_diff 8 200 0 = .error f) ∧
    signed_abs_diff 8 61 19 = signed_abs_diff 8 61 19 :=
  ⟨c5_abs_diff_deterministic_amended.1 1 2,
   c5_abs_diff_deterministic_amended.2.1 8 3 5 (by decide),
   c5_abs_diff_deterministic_amended.2.2.1 8 200 0 (by decide),
   c5_abs_diff_deterministic_amended.2.2.2.1 8 61 19 61 19 rfl rfl⟩

/-- Claim C6: for every signed width, whenever the exact difference
`a - b` has magnitude at most `MAX`, `abs_diff` succeeds and returns the
non-negative magnitude of the difference. -/
theorem c6_signed_abs_diff_returns_magnitude (w : Nat) (a b : Int)
    (h : |a - b| ≤ smax w) : signed_abs_diff w a b = .ok |a - b| :=
  signed_abs_diff_ok_small w a b h

/-- Witness for C6 at width 8: `MAX.abs_diff(1)` succeeds and equals
`MAX - 1 = 126`. -/
theorem c6_signed_abs_diff_returns_magnitude_witness :
    |(127 : Int) - 1| ≤ smax 8 ∧ signed_abs_diff 8 127 1 = .ok 126 := by
  refine ⟨by decide, ?_⟩
  rw [c6_signed_abs_diff_returns_magnitude 8 127 1 (by decide)]
  rfl

/-- Claim C7: on any family and any value `a`, `abs_diff a a` returns a
value equal to `zero()`, with no fault even at `MIN` and `MAX`. -/
theorem c7_abs_diff_self_is_zero :
    (∀ a : Nat, unsigned_abs_diff a a = some unsigned_zero) ∧
    (∀ (w : Nat) (a : Int), signed_abs_diff w a a = .ok signed_zero) := by
  constructor
  · intro a
    rw [unsigned_abs_diff_eq]
    simp [unsigned_zero]
  · intro w a
    have h : |a - a| ≤ smax w := by
      rw [sub_self, abs_zero]
      unfold smax
      have h1 := one_le_two_pow_int (w - 1)
      linarith
    have h2 := signed_abs_diff_ok_small w a a h
    rw [sub_self, abs_zero] at h2
    exact h2

/-- Claim C8: for every unsigned width, `abs_diff(MAX, 1)` and
`abs_diff(1, MAX)` both return `MAX - 1` with no fault. -/
theorem c8_unsigned_abs_diff_max_boundary (w : Nat) (hw : 0 < w) :
    unsigned_abs_diff (umax w) 1 = some (umax w - 1) ∧
    unsigned_abs_diff 1 (umax w) = some (umax w - 1) := by
  have h1 : 1 ≤ umax w := by
    unfold umax
    have h2 : 2 ^ 1 ≤ 2 ^ w := Nat.pow_le_pow_right (by norm_num) hw
    omega
  rw [unsigned_abs_diff_eq, unsigned_abs_diff_eq]
  constructor <;> (simp only [Option.some.injEq]; omega)

/-- Witness for C8 at width 8: both directions return 254. -/
theorem c8_unsigned_abs_diff_max_boundary_witness :
    0 < 8 ∧ unsigned_abs_diff (umax 8) 1 = some (umax 8 - 1) ∧
      unsigned_abs_diff 1 (umax 8) = some (umax 8 - 1) :=
  ⟨by decide, c8_unsigned_abs_diff_max_boundary 8 (by decide)⟩

/-- Claim C9: `zero()` returns the literal 0 on both families; it has no
inputs and no failure mode. -/
theorem c9_zero_returns_literal_zero : signed_zero = 0 ∧ unsigned_zero = 0 :=
  ⟨rfl, rfl⟩

/-- Claim C10: for every signed width, `abs_diff a b` faults if and only
if the exact difference has magnitude greater than `MAX`, with a
subtraction-overflow fault exactly when `a - b` lies outside
`[MIN, MAX]` and a negation-overflow fault exactly when `a - b = MIN`;
in particular `MIN.abs_diff(0)` faults with a negation overflow. -/
theorem c10_signed_abs_diff_fault_characterization (w : Nat) (a b : Int) :
    ((∃ f, signed_abs_diff w a b = .error f) ↔ smax w < |a - b|) ∧
    (signed_abs_diff w a b = .error .subOverflow ↔
      (a - b < smin w ∨ smax w < a - b)) ∧
    (signed_abs_diff w a b = .error .negOverflow ↔ a - b = smin w) ∧
    signed_abs_diff w (smin w) 0 = .error .negOverflow := by
  have hmin := smin_eq_neg_smax_sub_one w
  have hms := smin_le_smax w
  have h4 : signed_abs_diff w (smin w) 0 = .error .negOverflow := by
    rw [signed_abs_diff_spec, sub_zero, if_pos ⟨le_refl _, hms⟩, if_pos rfl]
  refine ⟨?_, ?_, ?_, h4⟩
  · constructor
    · rintro ⟨f, hf⟩
      by_contra hle
      push_neg at hle
      rw [signed_abs_diff_ok_small w a b hle] at hf
      exact Except.noConfusion hf
    · intro h
      by_cases hin : smin w ≤ a - b ∧ a - b ≤ smax w
      · refine ⟨.negOverflow, ?_⟩
        have he : a - b = smin w := by
          rcases lt_abs.mp h with h1 | h1
          · exact absurd h1 (not_lt.mpr hin.2)
          · have h2 : a - b < smin w + 1 := by linarith
            exact le_antisymm (Int.lt_add_one_iff.mp h2) hin.1
        rw [signed_abs_diff_spec, if_pos hin, if_pos he]
      · refine ⟨.subOverflow, ?_⟩
        rw [signed_abs_diff_spec, if_neg hin]
  · by_cases hin : smin w ≤ a - b ∧ a - b ≤ smax w
    · rw [signed_abs_diff_spec, if_pos hin]
      constructor
      · intro hf
        exfalso
        by_cases he : a - b = smin w
        · rw [if_pos he] at hf
          exact ArithFault.noConfusion (Except.error.inj hf)
        · rw [if_neg he] at hf
          exact Except.noConfusion hf
      · rintro (h | h)
        · exact absurd h (not_lt.mpr hin.1)
        · exact absurd h (not_lt.mpr hin.2)
    · rw [signed_abs_diff_spec, if_neg hin]
      constructor
      · intro _
        rcases not_and_or.mp hin with h | h
        · push_neg at h
          exact Or.inl h
        · push_neg at h
          exact Or.inr h
      · intro _
        rfl
  · by_cases hin : smin w ≤ a - b ∧ a - b ≤ smax w
    · rw [signed_abs_diff_spec, if_pos hin]
      by_cases he : a - b = smin w
      · rw [if_pos he]
        exact ⟨fun _ => he, fun _ => rfl⟩
      · rw [if_neg he]
        exact ⟨fun hf => Except.noConfusion hf, fun hh => absurd hh he⟩
    · rw [signed_abs_diff_spec, if_neg hin]
      constructor
      · intro hf
        exact ArithFault.noConfusion (Except.error.inj hf)
      · intro he
        exfalso
        refine hin ⟨?_, ?_⟩
        · rw [he]
        · rw [he]
          exact hms

end Genevo
